import Mathlib

/-!
Verification of the todo-app translation layer.

The program under study is a gateway configuration that maps an HTTP CRUD
surface for a single "todo" resource directly onto a key-value store
(DynamoDB).  The definitions below are a shallow embedding of that
configuration, read off `src/lib/todo-app-stack.ts`:

* `Todo`, `Store` — the data model: items with string fields id, title,
  description, keyed by id (the partition key of the `todos` table).
* `putItem`, `getItem`, `deleteItem`, `scan` — the four store primitives the
  configuration invokes, with the conditional-existence semantics selected by
  the condition expressions `attribute_not_exists(id)` and
  `attribute_exists(id)`.
* `todoModel` validation — the JSON-schema request model attached to the
  create and update methods: type object, properties id/title/description of
  type string, required id, title, description.
* the five method handlers — the end-to-end behaviour of each route,
  composed of validation, the request template, the store call, and the
  response templates with their literal bodies.
* `classifyBackendStatus` — the integration-response selection by status
  pattern, 2\d\x7b2\x7d mapping to HTTP 200 and 4\d\x7b2\x7d to HTTP 400.
* `createRequestText` — the raw (unescaped) text of the PutItem request
  template of the create route, for reasoning about interpolation.
-/

namespace TodoApp

/-- A todo item as stored in the `todos` table: the three string attributes
written by the PutItem request templates. -/
structure Todo where
  id : String
  title : String
  description : String
deriving DecidableEq, Repr

/-- The `todos` table: a list of items, addressed by the partition key `id`. -/
abbrev Store := List Todo

/-- Key lookup by partition key `id`. -/
def lookup (k : String) (s : Store) : Option Todo :=
  s.find? (fun t => t.id == k)

/-- Condition expressions used by the request templates: either
`attribute_not_exists(id)` (create) or `attribute_exists(id)` (update,
delete). -/
inductive Cond where
  | attributeNotExists
  | attributeExists
deriving DecidableEq, Repr

/-- DynamoDB PutItem with a condition expression on the key: writes the item
when the condition holds, returns `none` (ConditionalCheckFailed, an HTTP 400
from the store) and leaves the table unchanged otherwise.  The check and the
write are atomic. -/
def putItem (item : Todo) (cond : Cond) (s : Store) : Option Store :=
  match cond with
  | .attributeNotExists =>
      match lookup item.id s with
      | none => some (item :: s)
      | some _ => none
  | .attributeExists =>
      match lookup item.id s with
      | none => none
      | some _ => some (s.map (fun t => if t.id == item.id then item else t))

/-- DynamoDB GetItem: returns the item under the key, or nothing. -/
def getItem (k : String) (s : Store) : Option Todo :=
  lookup k s

/-- DynamoDB DeleteItem with `attribute_exists(id)`: removes the item when
present, returns `none` (ConditionalCheckFailed) otherwise. -/
def deleteItem (k : String) (s : Store) : Option Store :=
  match lookup k s with
  | none => none
  | some _ => some (s.filter (fun t => !(t.id == k)))

/-- DynamoDB Scan with a Limit: returns at most `limit` items in store
order. -/
def scan (limit : Nat) (s : Store) : List Todo :=
  s.take limit

/-- JSON values, as parsed from a request body. -/
inductive Json where
  | null
  | bool (b : Bool)
  | num (n : Int)
  | str (s : String)
  | arr (elems : List Json)
  | obj (fields : List (String × Json))

/-- Field access on a JSON object (first occurrence); `none` on non-objects
and absent keys. -/
def Json.getField : Json → String → Option Json
  | .obj kvs, k => (kvs.find? (fun p => p.fst == k)).map Prod.snd
  | _, _ => none

/-- The string value of a field, when the field is present and is a JSON
string. -/
def Json.getStr (j : Json) (k : String) : Option String :=
  match j.getField k with
  | some (.str s) => some s
  | _ => none

/-- Whether a JSON value is an object. -/
def Json.isObj : Json → Bool
  | .obj _ => true
  | _ => false

/-- The `required` list of the Todo request model. -/
def requiredKeys : List String := ["id", "title", "description"]

/-- The `properties` constraint of the Todo request model for one key: when
the key is present its value must be a JSON string; an absent key is not
constrained by `properties`. -/
def propertyIsStringOk (body : Json) (k : String) : Bool :=
  match body.getField k with
  | none => true
  | some (.str _) => true
  | some _ => false

/-- Validation of a request body against the `todoModel` JSON schema: type
object, keys id, title, description required, each of type string when
present.  The schema imposes no minimum length and does not forbid
additional fields. -/
def validateTodoModel (body : Json) : Bool :=
  body.isObj
    && requiredKeys.all (fun k => (body.getField k).isSome)
    && requiredKeys.all (fun k => propertyIsStringOk body k)

/-- The string a request template interpolates for a body field: the field
value when it is a string (the only case that survives validation). -/
def fieldText (body : Json) (k : String) : String :=
  (body.getStr k).getD ""

/-- An HTTP response: status code and JSON body. -/
structure Resp where
  status : Nat
  body : Json

/-- Outcome of one method invocation: the HTTP response, the resulting store
state, and whether the store was reached (false exactly when the request
validator rejected the body before dispatch). -/
structure MethodResult where
  response : Resp
  store : Store
  storeCalled : Bool

/-- Response body of the create route on success. -/
def createSuccessBody : Json :=
  .obj [("message", .str "To-Do object created successfully.")]

/-- Response body of the create route on a store-reported 4xx. -/
def createFailureBody : Json :=
  .obj [("message", .str "There was an error while creating a new To-Do object.")]

/-- Response body of the update route on success. -/
def updateSuccessBody : Json :=
  .obj [("message", .str "To-Do object updated successfully.")]

/-- Response body of the update route on a store-reported 4xx. -/
def updateFailureBody : Json :=
  .obj [("error", .str "There was an error while updating the To-Do object.")]

/-- Response body of the delete route on success. -/
def deleteSuccessBody : Json :=
  .obj [("message", .str "To-Do object deleted successfully.")]

/-- Response body of the delete route on a store-reported 4xx. -/
def deleteFailureBody : Json :=
  .obj [("error", .str "There has been an error while deleting the To-Do object.")]

/-- Response body shared by the list and single GET routes on failure, and by
the missing-item override of the single GET route. -/
def errorLoadingBody : Json :=
  .obj [("error", .str "There was an error loading the To-Do objects.")]

/-- The fixed body the gateway request validator returns when a body fails
model validation. -/
def invalidRequestBody : Json :=
  .obj [("message", .str "Invalid request body")]

/-- A PutItem request as assembled by a request template: table, item, and
condition expression. -/
structure PutItemRequest where
  tableName : String
  item : Todo
  condition : Cond
deriving DecidableEq, Repr

/-- The PutItem request of the create route (PUT /v1/todo): all three item
attributes are interpolated from the body, the condition is
`attribute_not_exists(id)`. -/
def mkCreateRequest (body : Json) : PutItemRequest :=
  { tableName := "todos"
    item := { id := fieldText body "id"
              title := fieldText body "title"
              description := fieldText body "description" }
    condition := .attributeNotExists }

/-- The PutItem request of the update route (PUT /v1/todo/\x7btodoId\x7d):
the id attribute is interpolated from the path parameter, title and
description from the body, the condition is `attribute_exists(id)`. -/
def mkUpdateRequest (todoId : String) (body : Json) : PutItemRequest :=
  { tableName := "todos"
    item := { id := todoId
              title := fieldText body "title"
              description := fieldText body "description" }
    condition := .attributeExists }

/-- A Scan request as assembled by the list route template. -/
structure ScanRequest where
  tableName : String
  limit : Nat
deriving DecidableEq, Repr

/-- The Scan request of GET /v1/todo: table `todos`, Limit 10. -/
def mkScanRequest : ScanRequest :=
  { tableName := "todos", limit := 10 }

/-- The JSON object the response templates render for one item. -/
def todoJson (t : Todo) : Json :=
  .obj [("id", .str t.id), ("title", .str t.title), ("description", .str t.description)]

/-- GET /v1/todo: scan bounded by the Limit of the request template, rendered
as a JSON array in store order. -/
def getAllTodosMethod (s : Store) : Resp :=
  { status := 200, body := .arr ((scan mkScanRequest.limit s).map todoJson) }

/-- GET /v1/todo/\x7btodoId\x7d: GetItem by the path id; an empty item is
overridden to HTTP 400 with the fixed error body, a present item is rendered
as its three fields with HTTP 200. -/
def getSingleTodoMethod (todoId : String) (s : Store) : Resp :=
  match getItem todoId s with
  | some t => { status := 200, body := todoJson t }
  | none => { status := 400, body := errorLoadingBody }

/-- PUT /v1/todo: body validation against the todoModel, then the conditional
PutItem of `mkCreateRequest`; a store-reported failure maps to HTTP 400 with
the operation-specific body and leaves the store unchanged. -/
def createTodoMethod (body : Json) (s : Store) : MethodResult :=
  if validateTodoModel body then
    match putItem (mkCreateRequest body).item (mkCreateRequest body).condition s with
    | some s2 => { response := { status := 200, body := createSuccessBody }, store := s2, storeCalled := true }
    | none => { response := { status := 400, body := createFailureBody }, store := s, storeCalled := true }
  else
    { response := { status := 400, body := invalidRequestBody }, store := s, storeCalled := false }

/-- PUT /v1/todo/\x7btodoId\x7d: body validation against the same todoModel
as the create route, then the conditional PutItem of `mkUpdateRequest`. -/
def updateSingleTodoMethod (todoId : String) (body : Json) (s : Store) : MethodResult :=
  if validateTodoModel body then
    match putItem (mkUpdateRequest todoId body).item (mkUpdateRequest todoId body).condition s with
    | some s2 => { response := { status := 200, body := updateSuccessBody }, store := s2, storeCalled := true }
    | none => { response := { status := 400, body := updateFailureBody }, store := s, storeCalled := true }
  else
    { response := { status := 400, body := invalidRequestBody }, store := s, storeCalled := false }

/-- DELETE /v1/todo/\x7btodoId\x7d: the conditional DeleteItem keyed on the
path id; no request model is attached. -/
def deleteSingleTodoMethod (todoId : String) (s : Store) : MethodResult :=
  match deleteItem todoId s with
  | some s2 => { response := { status := 200, body := deleteSuccessBody }, store := s2, storeCalled := true }
  | none => { response := { status := 400, body := deleteFailureBody }, store := s, storeCalled := true }

/-- A well-formed create/update body with the three string fields, as in the
round-trip scenario of the spec. -/
def todoBody (i t d : String) : Json :=
  .obj [("id", .str i), ("title", .str t), ("description", .str d)]

/-- A body carrying only title and description, as the spec claims suffices
for the update route. -/
def titleDescOnlyBody : Json :=
  .obj [("title", .str "A"), ("description", .str "B")]

/-- A body whose three required fields are strings but whose id is the empty
string. -/
def emptyIdBody : Json :=
  .obj [("id", .str ""), ("title", .str "A"), ("description", .str "B")]

/-- Appending one extra field to a JSON object body; other values are
unchanged. -/
def addField (j : Json) (k : String) (v : Json) : Json :=
  match j with
  | .obj kvs => .obj (kvs ++ [(k, v)])
  | other => other

/-- Whether a backend HTTP status code matches the selection pattern
consisting of the digit `hundreds` followed by two arbitrary digits (the
patterns 2\d\x7b2\x7d and 4\d\x7b2\x7d of the integration responses),
expressed on three-digit status codes as a range test. -/
def matchesSelectionRange (hundreds : Nat) (status : Nat) : Bool :=
  hundreds * 100 ≤ status && status < (hundreds + 1) * 100

/-- Classification of a store outcome by the two integration responses of a
route: a 2xx backend status selects the HTTP 200 response, a 4xx backend
status selects the HTTP 400 response with the operation-specific failure
body, and any other status matches neither integration response. -/
def classifyBackendStatus (success : Resp) (failureBody : Json) (backendStatus : Nat) : Option Resp :=
  if matchesSelectionRange 2 backendStatus then some success
  else if matchesSelectionRange 4 backendStatus then some { status := 400, body := failureBody }
  else none

/-- The response the gateway returns for a backend status: the classified
response when one of the two selection patterns matches; when neither
matches, the gateway has no output mapping for the outcome and itself fails
the request with a 500 (the unclassified outcome of the spec taxonomy). -/
def gatewayRespond (success : Resp) (failureBody : Json) (backendStatus : Nat) : Resp :=
  (classifyBackendStatus success failureBody backendStatus).getD
    { status := 500, body := .obj [("message", .str "Internal server error")] }

/-- The text before the interpolated id value in the PutItem request template
of the create route, exactly as in the source template literal. -/
def createTextPre : String :=
  "\x7b\n            \"TableName\": \"todos\",\n            \"Item\": \x7b\n              \"id\": \x7b\n                \"S\": \""

/-- The text between the interpolated id and title values in the PutItem
request template of the create route. -/
def createTextMid1 : String :=
  "\"\n              \x7d,\n              \"title\": \x7b\n                \"S\": \""

/-- The text between the interpolated title and description values in the
PutItem request template of the create route. -/
def createTextMid2 : String :=
  "\"\n              \x7d,\n              \"description\": \x7b\n                \"S\": \""

/-- The text after the interpolated description value in the PutItem request
template of the create route. -/
def createTextPost : String :=
  "\"\n              \x7d\n            \x7d,\n            \"ConditionExpression\": \"attribute_not_exists(id)\"\n          \x7d"

/-- The store request text the create route produces for given field values:
the request template with each input placeholder replaced by the raw field
value, with no escaping applied. -/
def createRequestText (i t d : String) : String :=
  createTextPre ++ i ++ createTextMid1 ++ t ++ createTextMid2 ++ d ++ createTextPost

/-! Helper lemmas shared by the claim theorems. -/

/-- A body with the three string fields passes todoModel validation. -/
theorem validate_todoBody (i t d : String) : validateTodoModel (todoBody i t d) = true := rfl

/-- The create template on a three-string-field body. -/
theorem mkCreateRequest_todoBody (i t d : String) :
    mkCreateRequest (todoBody i t d) = ⟨"todos", ⟨i, t, d⟩, .attributeNotExists⟩ := rfl

/-- The update template on a three-string-field body: the id attribute comes
from the path parameter; the id field of the body is ignored. -/
theorem mkUpdateRequest_todoBody (todoId i t d : String) :
    mkUpdateRequest todoId (todoBody i t d) = ⟨"todos", ⟨todoId, t, d⟩, .attributeExists⟩ := rfl

/-- Evaluation of the create method when the key is absent. -/
theorem createTodoMethod_absent (i t d : String) (s : Store) (h : lookup i s = none) :
    createTodoMethod (todoBody i t d) s =
      ⟨⟨200, createSuccessBody⟩, ⟨i, t, d⟩ :: s, true⟩ := by
  simp [createTodoMethod, validate_todoBody, mkCreateRequest_todoBody, putItem, h]

/-- Evaluation of the create method when the key is present: the conditional
check fails, the response is the operation-specific 400, the store is
unchanged. -/
theorem createTodoMethod_present (i t d : String) (s : Store) (u : Todo)
    (h : lookup i s = some u) :
    createTodoMethod (todoBody i t d) s = ⟨⟨400, createFailureBody⟩, s, true⟩ := by
  simp [createTodoMethod, validate_todoBody, mkCreateRequest_todoBody, putItem, h]

/-- Evaluation of the update method when the key is absent: the conditional
check fails, the response is the operation-specific 400, the store is
unchanged. -/
theorem updateSingleTodoMethod_absent (todoId i t d : String) (s : Store)
    (h : lookup todoId s = none) :
    updateSingleTodoMethod todoId (todoBody i t d) s =
      ⟨⟨400, updateFailureBody⟩, s, true⟩ := by
  simp [updateSingleTodoMethod, validate_todoBody, mkUpdateRequest_todoBody, putItem, h]

/-- Evaluation of the update method when the key is present. -/
theorem updateSingleTodoMethod_present (todoId i t d : String) (s : Store) (u : Todo)
    (h : lookup todoId s = some u) :
    updateSingleTodoMethod todoId (todoBody i t d) s =
      ⟨⟨200, updateSuccessBody⟩,
        s.map (fun x => if x.id == todoId then ⟨todoId, t, d⟩ else x), true⟩ := by
  simp [updateSingleTodoMethod, validate_todoBody, mkUpdateRequest_todoBody, putItem, h]

/-- Evaluation of the delete method when the key is absent: the conditional
check fails, the response is the operation-specific 400, the store is
unchanged. -/
theorem deleteSingleTodoMethod_absent (todoId : String) (s : Store)
    (h : lookup todoId s = none) :
    deleteSingleTodoMethod todoId s = ⟨⟨400, deleteFailureBody⟩, s, true⟩ := by
  simp [deleteSingleTodoMethod, deleteItem, h]

/-- Evaluation of the delete method when the key is present. -/
theorem deleteSingleTodoMethod_present (todoId : String) (s : Store) (u : Todo)
    (h : lookup todoId s = some u) :
    deleteSingleTodoMethod todoId s =
      ⟨⟨200, deleteSuccessBody⟩, s.filter (fun x => !(x.id == todoId)), true⟩ := by
  simp [deleteSingleTodoMethod, deleteItem, h]

/-- For one key, the conjunction of the required check and the properties
check of the schema amounts to the field being present as a string. -/
theorem key_ok (body : Json) (k : String) :
    ((body.getField k).isSome && propertyIsStringOk body k) = (body.getStr k).isSome := by
  simp only [Json.getStr, propertyIsStringOk]
  cases hf : body.getField k with
  | none => rfl
  | some v => cases v <;> rfl

/-- A body passing todoModel validation has each required field present as a
string. -/
theorem getStr_isSome_of_validate (body : Json) (k : String) (hk : k ∈ requiredKeys)
    (hv : validateTodoModel body = true) : (body.getStr k).isSome = true := by
  rw [validateTodoModel, Bool.and_eq_true, Bool.and_eq_true] at hv
  obtain ⟨⟨-, h1⟩, h2⟩ := hv
  rw [List.all_eq_true] at h1 h2
  rw [← key_ok body k, Bool.and_eq_true]
  exact ⟨h1 k hk, h2 k hk⟩

/-- A field present as a string satisfies both schema checks for its key. -/
theorem field_ok_of_getStr (body : Json) (k : String)
    (h : (body.getStr k).isSome = true) :
    (body.getField k).isSome = true ∧ propertyIsStringOk body k = true := by
  rw [← key_ok body k, Bool.and_eq_true] at h
  exact h

/-- A body with the three required fields present as strings passes
todoModel validation. -/
theorem validate_of_getStr (body : Json)
    (h1 : (body.getStr "id").isSome = true)
    (h2 : (body.getStr "title").isSome = true)
    (h3 : (body.getStr "description").isSome = true) :
    validateTodoModel body = true := by
  have hobj : body.isObj = true := by
    cases body <;> first | rfl | (exfalso; simp [Json.getStr, Json.getField] at h1)
  rw [validateTodoModel, Bool.and_eq_true, Bool.and_eq_true]
  refine ⟨⟨hobj, ?_⟩, ?_⟩ <;> rw [List.all_eq_true] <;> intro k hk <;>
    (simp only [requiredKeys, List.mem_cons, List.not_mem_nil, or_false] at hk) <;>
    rcases hk with rfl | rfl | rfl
  · exact (field_ok_of_getStr body "id" h1).1
  · exact (field_ok_of_getStr body "title" h2).1
  · exact (field_ok_of_getStr body "description" h3).1
  · exact (field_ok_of_getStr body "id" h1).2
  · exact (field_ok_of_getStr body "title" h2).2
  · exact (field_ok_of_getStr body "description" h3).2

/-- A body with one required field missing or not a string fails todoModel
validation. -/
theorem validate_false_of_getStr_none (body : Json)
    (h : body.getStr "id" = none ∨ body.getStr "title" = none ∨
      body.getStr "description" = none) :
    validateTodoModel body = false := by
  cases hvb : validateTodoModel body with
  | false => rfl
  | true =>
    exfalso
    rcases h with h | h | h
    · have hs := getStr_isSome_of_validate body "id" (by simp [requiredKeys]) hvb
      rw [h] at hs
      simp at hs
    · have hs := getStr_isSome_of_validate body "title" (by simp [requiredKeys]) hvb
      rw [h] at hs
      simp at hs
    · have hs := getStr_isSome_of_validate body "description" (by simp [requiredKeys]) hvb
      rw [h] at hs
      simp at hs

/-- A PutItem guarded by attribute_exists never changes the id of any stored
item: the write replaces in place under the same key. -/
theorem putItem_exists_map_id (item : Todo) (s s2 : Store)
    (h : putItem item .attributeExists s = some s2) :
    s2.map Todo.id = s.map Todo.id := by
  rw [putItem] at h
  cases hl : lookup item.id s with
  | none => rw [hl] at h; cases h
  | some u =>
    rw [hl] at h
    injection h with h2
    rw [← h2, List.map_map]
    congr 1
    funext x
    simp only [Function.comp]
    by_cases hx : (x.id == item.id) = true
    · rw [if_pos hx]
      exact (eq_of_beq hx).symm
    · rw [if_neg hx]

/-- Appending an extra field does not change the lookup of a different key. -/
theorem getField_addField (j : Json) (k k2 : String) (v : Json)
    (h : (k == k2) = false) :
    (addField j k v).getField k2 = j.getField k2 := by
  cases j with
  | obj kvs =>
    simp only [addField, Json.getField]
    have hfind : List.find? (fun p => p.fst == k2) (kvs ++ [(k, v)]) =
        List.find? (fun p => p.fst == k2) kvs := by
      induction kvs with
      | nil => simp [List.find?, h]
      | cons q qs ih =>
        cases hq : (q.fst == k2) <;> simp [List.find?, hq, ih]
    rw [hfind]
  | null => rfl
  | bool b => rfl
  | num n => rfl
  | str s => rfl
  | arr elems => rfl

/-- Appending an extra field does not change the string value of a different
key. -/
theorem getStr_addField (j : Json) (k k2 : String) (v : Json)
    (h : (k == k2) = false) :
    (addField j k v).getStr k2 = j.getStr k2 := by
  simp only [Json.getStr, getField_addField j k k2 v h]

/-! Claim theorems. -/

/-- C1: a create against an existing key, and an update or delete against a
missing key, fail with the conditional-check failure surfaced as HTTP 400
with the operation-specific body and leave the store unchanged; the same
operations respond HTTP 200 when their existence precondition holds. -/
theorem c1_conditional_check_failures (i t d : String) (s : Store) :
    (∀ u, lookup i s = some u →
      createTodoMethod (todoBody i t d) s = ⟨⟨400, createFailureBody⟩, s, true⟩ ∧
      (updateSingleTodoMethod i (todoBody i t d) s).response.status = 200 ∧
      (deleteSingleTodoMethod i s).response.status = 200) ∧
    (lookup i s = none →
      updateSingleTodoMethod i (todoBody i t d) s = ⟨⟨400, updateFailureBody⟩, s, true⟩ ∧
      deleteSingleTodoMethod i s = ⟨⟨400, deleteFailureBody⟩, s, true⟩ ∧
      (createTodoMethod (todoBody i t d) s).response.status = 200) := by
  constructor
  · intro u hu
    refine ⟨createTodoMethod_present i t d s u hu, ?_, ?_⟩
    · rw [updateSingleTodoMethod_present i i t d s u hu]
    · rw [deleteSingleTodoMethod_present i s u hu]
  · intro h
    refine ⟨updateSingleTodoMethod_absent i i t d s h,
      deleteSingleTodoMethod_absent i s h, ?_⟩
    rw [createTodoMethod_absent i t d s h]

/-- C1 witness: the conditional-check outcomes at concrete inputs, once on a
store holding an item with key 1 and once on the empty store. -/
theorem c1_conditional_check_failures_witness :
    (createTodoMethod (todoBody "1" "A" "B") [⟨"1", "x", "y"⟩] =
        ⟨⟨400, createFailureBody⟩, [⟨"1", "x", "y"⟩], true⟩ ∧
      (updateSingleTodoMethod "1" (todoBody "1" "A" "B") [⟨"1", "x", "y"⟩]).response.status = 200 ∧
      (deleteSingleTodoMethod "1" [⟨"1", "x", "y"⟩]).response.status = 200) ∧
    (updateSingleTodoMethod "1" (todoBody "1" "A" "B") [] =
        ⟨⟨400, updateFailureBody⟩, [], true⟩ ∧
      deleteSingleTodoMethod "1" [] = ⟨⟨400, deleteFailureBody⟩, [], true⟩ ∧
      (createTodoMethod (todoBody "1" "A" "B") []).response.status = 200) :=
  ⟨(c1_conditional_check_failures "1" "A" "B" [⟨"1", "x", "y"⟩]).1 ⟨"1", "x", "y"⟩ rfl,
    (c1_conditional_check_failures "1" "A" "B" []).2 rfl⟩

/-- C2: a successful create of id i, title t, description d followed by a GET
of id i returns HTTP 200 with exactly the object of the three fields. -/
theorem c2_round_trip (i t d : String) (s : Store) (h : lookup i s = none) :
    (createTodoMethod (todoBody i t d) s).response = ⟨200, createSuccessBody⟩ ∧
    getSingleTodoMethod i (createTodoMethod (todoBody i t d) s).store =
      ⟨200, .obj [("id", .str i), ("title", .str t), ("description", .str d)]⟩ := by
  rw [createTodoMethod_absent i t d s h]
  refine ⟨rfl, ?_⟩
  simp [getSingleTodoMethod, getItem, lookup, List.find?, todoJson]

/-- C2 witness: the round trip of the spec at id 1, title A, description B on
the empty store. -/
theorem c2_round_trip_witness :
    (createTodoMethod (todoBody "1" "A" "B") []).response = ⟨200, createSuccessBody⟩ ∧
    getSingleTodoMethod "1" (createTodoMethod (todoBody "1" "A" "B") []).store =
      ⟨200, .obj [("id", .str "1"), ("title", .str "A"), ("description", .str "B")]⟩ :=
  c2_round_trip "1" "A" "B" [] rfl

/-- C3: a GET of an id with no stored item returns HTTP 400 with the fixed
error body, never HTTP 200. -/
theorem c3_missing_item_get_override (todoId : String) (s : Store)
    (h : lookup todoId s = none) :
    getSingleTodoMethod todoId s = ⟨400, errorLoadingBody⟩ ∧
    (getSingleTodoMethod todoId s).status ≠ 200 := by
  have he : getSingleTodoMethod todoId s = ⟨400, errorLoadingBody⟩ := by
    simp [getSingleTodoMethod, getItem, h]
  exact ⟨he, by rw [he]; decide⟩

/-- C3 witness: the missing-item GET at a concrete absent id on the empty
store. -/
theorem c3_missing_item_get_override_witness :
    getSingleTodoMethod "doesnotexist" [] = ⟨400, errorLoadingBody⟩ ∧
    (getSingleTodoMethod "doesnotexist" []).status ≠ 200 :=
  c3_missing_item_get_override "doesnotexist" [] rfl

/-- C4: the update route keys the store write on the path id only, so no
request body can change the id of any stored item: the written item carries
the path id, and the multiset of ids in the store is preserved positionally
by the update. -/
theorem c4_id_immutable (todoId : String) (body : Json) (s : Store) :
    (mkUpdateRequest todoId body).item.id = todoId ∧
    (updateSingleTodoMethod todoId body s).store.map Todo.id = s.map Todo.id := by
  refine ⟨rfl, ?_⟩
  cases hv : validateTodoModel body with
  | false => simp [updateSingleTodoMethod, hv]
  | true =>
    rw [updateSingleTodoMethod]
    simp only [hv, if_true]
    cases hp : putItem (mkUpdateRequest todoId body).item (mkUpdateRequest todoId body).condition s with
    | none => rfl
    | some s2 => exact putItem_exists_map_id (mkUpdateRequest todoId body).item s s2 hp

/-- C5 counterexample: a body holding only title and description as strings
fails validation on the update route, because the same todoModel as the
create route is attached and it requires an id field; the request is
rejected before the store is reached, not dispatched. -/
theorem c5_counterexample :
    validateTodoModel titleDescOnlyBody = false ∧
    updateSingleTodoMethod "1" titleDescOnlyBody [⟨"1", "x", "y"⟩] =
      ⟨⟨400, invalidRequestBody⟩, [⟨"1", "x", "y"⟩], false⟩ :=
  ⟨rfl, rfl⟩

/-- C5 amended: for the update route a body must contain id, title and
description as strings (the create model is reused); a body whose id field
is missing or not a string is rejected before dispatch, and when the id
field is a string the request is dispatched with the key taken from the
path, the body id being ignored. -/
theorem c5_update_body_requires_id (todoId idv t d : String) (s : Store) (body : Json)
    (hid : body.getStr "id" = none) :
    (updateSingleTodoMethod todoId body s).storeCalled = false ∧
    validateTodoModel (todoBody idv t d) = true ∧
    (mkUpdateRequest todoId (todoBody idv t d)).item = ⟨todoId, t, d⟩ ∧
    (updateSingleTodoMethod todoId (todoBody idv t d) s).storeCalled = true := by
  have hv : validateTodoModel body = false :=
    validate_false_of_getStr_none body (Or.inl hid)
  refine ⟨by simp [updateSingleTodoMethod, hv], validate_todoBody idv t d, rfl, ?_⟩
  rw [updateSingleTodoMethod]
  simp only [validate_todoBody, if_true]
  cases putItem (mkUpdateRequest todoId (todoBody idv t d)).item
      (mkUpdateRequest todoId (todoBody idv t d)).condition s <;> rfl

/-- C5 amended witness: the amended behaviour at concrete inputs, with the
id-less body rejected and the full body dispatched. -/
theorem c5_update_body_requires_id_witness :
    (updateSingleTodoMethod "1" titleDescOnlyBody []).storeCalled = false ∧
    validateTodoModel (todoBody "9" "A" "B") = true ∧
    (mkUpdateRequest "1" (todoBody "9" "A" "B")).item = ⟨"1", "A", "B"⟩ ∧
    (updateSingleTodoMethod "1" (todoBody "9" "A" "B") []).storeCalled = true :=
  c5_update_body_requires_id "1" "9" "A" "B" [] titleDescOnlyBody rfl

/-- C6 counterexample: a create body whose id is the empty string passes
todoModel validation (the schema has no minimum length) and is dispatched to
the store; it is not rejected before the store call as the claim states —
any rejection of the empty key happens at the store, as a store-reported
failure. -/
theorem c6_counterexample :
    validateTodoModel emptyIdBody = true ∧
    (createTodoMethod emptyIdBody []).storeCalled = true :=
  ⟨rfl, rfl⟩

/-- C6 amended: a create body missing one of id, title, description, or in
which one of these is not a string, is rejected with HTTP 400 before any
store call occurs; the schema does not require the strings to be non-empty,
so empty-string fields pass validation and are dispatched. -/
theorem c6_validation_rejects_missing_or_nonstring (body : Json) (s : Store)
    (h : body.getStr "id" = none ∨ body.getStr "title" = none ∨
      body.getStr "description" = none) :
    createTodoMethod body s = ⟨⟨400, invalidRequestBody⟩, s, false⟩ := by
  have hv : validateTodoModel body = false := validate_false_of_getStr_none body h
  simp [createTodoMethod, hv]

/-- C6 amended witness: the body of the spec scenario, with the description
field missing, is rejected before dispatch on the empty store. -/
theorem c6_validation_rejects_missing_or_nonstring_witness :
    createTodoMethod (.obj [("id", .str "1"), ("title", .str "A")]) [] =
      ⟨⟨400, invalidRequestBody⟩, [], false⟩ :=
  c6_validation_rejects_missing_or_nonstring
    (.obj [("id", .str "1"), ("title", .str "A")]) [] (Or.inr (Or.inr rfl))

/-- C7 counterexample: a store internal fault reported with status 500
matches neither selection pattern, so no integration response (in particular
no HTTP 400) is selected and the gateway answers with its own 500 — a 5xx
outcome, contradicting the claim that every store failure surfaces as
HTTP 400. -/
theorem c7_counterexample :
    classifyBackendStatus ⟨200, createSuccessBody⟩ createFailureBody 500 = none ∧
    (gatewayRespond ⟨200, createSuccessBody⟩ createFailureBody 500).status = 500 :=
  ⟨rfl, rfl⟩

/-- C7 amended: every store failure reported with a 4xx status — throttling
and conditional-check failures included — is surfaced as HTTP 400 with the
operation-specific body; a store 5xx fault matches neither selection pattern
and yields the unclassified gateway outcome instead of a 400. -/
theorem c7_4xx_surfaced_as_400 (success : Resp) (failureBody : Json) (n : Nat)
    (h4 : 400 ≤ n) (h5 : n < 500) :
    classifyBackendStatus success failureBody n = some ⟨400, failureBody⟩ ∧
    gatewayRespond success failureBody n = ⟨400, failureBody⟩ := by
  have h2 : matchesSelectionRange 2 n = false := by
    simp only [matchesSelectionRange, Bool.and_eq_false_iff, decide_eq_false_iff_not]
    omega
  have h4x : matchesSelectionRange 4 n = true := by
    simp only [matchesSelectionRange, Bool.and_eq_true, decide_eq_true_eq]
    omega
  constructor
  · rw [classifyBackendStatus, h2, h4x]
    rfl
  · rw [gatewayRespond, classifyBackendStatus, h2, h4x]
    rfl

/-- C7 amended witness: a conditional-check failure (status 400) on the
create route classifies to the HTTP 400 response with the create failure
body. -/
theorem c7_4xx_surfaced_as_400_witness :
    classifyBackendStatus ⟨200, createSuccessBody⟩ createFailureBody 400 =
      some ⟨400, createFailureBody⟩ ∧
    gatewayRespond ⟨200, createSuccessBody⟩ createFailureBody 400 =
      ⟨400, createFailureBody⟩ :=
  c7_4xx_surfaced_as_400 ⟨200, createSuccessBody⟩ createFailureBody 400
    (by decide) (by decide)

/-- C8: the request template interpolates field values without escaping, so
it is not a faithful encoding: two distinct intended items — built from
field values containing double quotes and braces — produce the identical
store request text, hence for at least one of them the produced request is
not a well-formed encoding of the intended three-field item. -/
theorem c8_raw_interpolation_ambiguous :
    ∃ a b : Todo, a ≠ b ∧
      createRequestText a.id a.title a.description =
        createRequestText b.id b.title b.description := by
  refine ⟨⟨"a", "b" ++ createTextMid1 ++ "c", "d"⟩,
    ⟨"a" ++ createTextMid1 ++ "b", "c", "d"⟩, by decide, ?_⟩
  simp only [createRequestText, String.append_assoc]

/-- C9: the scan request carries the fixed Limit 10, so the list response is
a JSON array of at most 10 elements for every store state. -/
theorem c9_scan_bound (s : Store) :
    mkScanRequest.limit = 10 ∧
    ∃ xs, (getAllTodosMethod s).body = Json.arr xs ∧ xs.length ≤ 10 := by
  refine ⟨rfl, (scan mkScanRequest.limit s).map todoJson, rfl, ?_⟩
  simp only [scan, mkScanRequest, List.length_map]
  exact List.length_take_le 10 s

/-- C10: adding an arbitrary extra field to a valid create or update body
leaves validation passing and leaves the dispatched store write unchanged:
the written item carries exactly id, title, description, and the extra field
never appears in it. -/
theorem c10_extra_fields_discarded (body : Json) (k : String) (v : Json)
    (todoId : String) (s : Store)
    (hk1 : (k == "id") = false) (hk2 : (k == "title") = false)
    (hk3 : (k == "description") = false)
    (h1 : (body.getStr "id").isSome = true)
    (h2 : (body.getStr "title").isSome = true)
    (h3 : (body.getStr "description").isSome = true) :
    validateTodoModel (addField body k v) = true ∧
    mkCreateRequest (addField body k v) = mkCreateRequest body ∧
    mkUpdateRequest todoId (addField body k v) = mkUpdateRequest todoId body ∧
    createTodoMethod (addField body k v) s = createTodoMethod body s ∧
    updateSingleTodoMethod todoId (addField body k v) s =
      updateSingleTodoMethod todoId body s := by
  have g1 := getStr_addField body k "id" v hk1
  have g2 := getStr_addField body k "title" v hk2
  have g3 := getStr_addField body k "description" v hk3
  have hv1 : validateTodoModel body = true := validate_of_getStr body h1 h2 h3
  have hv2 : validateTodoModel (addField body k v) = true :=
    validate_of_getStr _ (by rw [g1]; exact h1) (by rw [g2]; exact h2)
      (by rw [g3]; exact h3)
  have hcr : mkCreateRequest (addField body k v) = mkCreateRequest body := by
    simp [mkCreateRequest, fieldText, g1, g2, g3]
  have hup : mkUpdateRequest todoId (addField body k v) = mkUpdateRequest todoId body := by
    simp [mkUpdateRequest, fieldText, g2, g3]
  refine ⟨hv2, hcr, hup, ?_, ?_⟩
  · simp only [createTodoMethod, hv1, hv2, hcr]
  · simp only [updateSingleTodoMethod, hv1, hv2, hup]

/-- C10 witness: an extra field on the round-trip body changes neither
validation nor the dispatched create and update writes on the empty
store. -/
theorem c10_extra_fields_discarded_witness :
    validateTodoModel (addField (todoBody "1" "A" "B") "extra" (.str "x")) = true ∧
    mkCreateRequest (addField (todoBody "1" "A" "B") "extra" (.str "x")) =
      mkCreateRequest (todoBody "1" "A" "B") ∧
    mkUpdateRequest "1" (addField (todoBody "1" "A" "B") "extra" (.str "x")) =
      mkUpdateRequest "1" (todoBody "1" "A" "B") ∧
    createTodoMethod (addField (todoBody "1" "A" "B") "extra" (.str "x")) [] =
      createTodoMethod (todoBody "1" "A" "B") [] ∧
    updateSingleTodoMethod "1" (addField (todoBody "1" "A" "B") "extra" (.str "x")) [] =
      updateSingleTodoMethod "1" (todoBody "1" "A" "B") [] :=
  c10_extra_fields_discarded (todoBody "1" "A" "B") "extra" (.str "x") "1" []
    rfl rfl rfl rfl rfl rfl

end TodoApp
